import Mathlib

/-!
Formal model of the Rocket League session-tally program (src/main.rs):
the filesystem-event debouncer, the replay-property extraction, the
per-match merge into the running tally, and the report formatter.
Machine integers are modelled as Nat / Int with explicit wrapping where
the source casts (`as usize` on a 64-bit target).
-/

namespace RLSession

/-- Model of `boxcars::HeaderProp`: the variants the program inspects
(`Int` carries an `i32`, `Str` a string, `Array` the per-player rows),
plus a catch-all for every other variant, which the program treats as
an unexpected type. -/
inductive HeaderProp where
  | int (v : Int)
  | str (v : String)
  | array (rows : List (List (String × HeaderProp)))
  | other

/-- Model of `HeaderProp::as_i32`: yields the payload of an `Int`, none
otherwise. -/
def HeaderProp.asI32 : HeaderProp → Option Int
  | .int v => some v
  | _ => none

/-- Per-player cumulative statistics, `struct PlayerStats` in the source.
Each metric pair is `(cumulative_total, most_recent_match_value)`. -/
structure PlayerStats where
  times_seen : Nat
  wins : Nat
  losses : Nat
  score : Nat × Nat
  goals : Nat × Nat
  assists : Nat × Nat
  saves : Nat × Nat
  shots : Nat × Nat
deriving DecidableEq, Repr

/-- The session state, `struct Tally` in the source.  The `HashMap` is
modelled as an association list with at most one entry per key. -/
structure Tally where
  player_stats : List (String × PlayerStats)
  games_played : Nat
deriving DecidableEq, Repr

/-- The empty tally the program starts from (`games_played: 0`, empty map). -/
def initTally : Tally := { player_stats := [], games_played := 0 }

/-- Model of `HashMap::get`: the value stored under key `n`. -/
def lookupPlayer (m : List (String × PlayerStats)) (n : String) : Option PlayerStats :=
  match m with
  | [] => none
  | (k, v) :: rest => if k = n then some v else lookupPlayer rest n

/-- Model of `HashMap::entry(n).and_modify(f).or_insert(d)`. -/
def updatePlayer (m : List (String × PlayerStats)) (n : String)
    (f : PlayerStats → PlayerStats) (d : PlayerStats) : List (String × PlayerStats) :=
  match m with
  | [] => [(n, d)]
  | (k, v) :: rest => if k = n then (k, f v) :: rest else (k, v) :: updatePlayer rest n f d

/-- The wrapping cast `*v as usize` applied to an `i32` payload on a
64-bit target: sign-extend and reinterpret, i.e. reduce modulo 2^64. -/
def i32AsUsize (v : Int) : Nat := (v % (2 ^ 64 : Int)).toNat

/-- Accumulator for the per-player property loop (the local mutable
variables `name`, `score`, `goals`, `assists`, `saves`, `shots`, `team`
of the source, all numeric ones starting at 0 and `name` at `None`). -/
structure LineAcc where
  name : Option String
  score : Nat
  goals : Nat
  assists : Nat
  saves : Nat
  shots : Nat
  team : Nat
deriving DecidableEq, Repr

/-- One iteration of `for (key, prop) in player_stat`: a recognised
key of the right shape overwrites the accumulator field, anything else
is ignored. -/
def stepProp (a : LineAcc) (kv : String × HeaderProp) : LineAcc :=
  match kv with
  | ("Name", .str v) => { a with name := some v }
  | ("Score", .int v) => { a with score := i32AsUsize v }
  | ("Goals", .int v) => { a with goals := i32AsUsize v }
  | ("Assists", .int v) => { a with assists := i32AsUsize v }
  | ("Saves", .int v) => { a with saves := i32AsUsize v }
  | ("Shots", .int v) => { a with shots := i32AsUsize v }
  | ("Team", .int v) => { a with team := i32AsUsize v }
  | _ => a

/-- The accumulator's initial value: no name, every number 0. -/
def initAcc : LineAcc :=
  { name := none, score := 0, goals := 0, assists := 0, saves := 0, shots := 0, team := 0 }

/-- Reading one player row: fold the property loop over the row. -/
def readLine (row : List (String × HeaderProp)) : LineAcc :=
  row.foldl stepProp initAcc

/-- `team_win_lose`: `(2, 2)` on equal scores, else `(0, 1)` when team 0
scored higher, else `(1, 0)`. -/
def teamWinLose (t0 t1 : Int) : Nat × Nat :=
  if t0 = t1 then (2, 2) else if t0 > t1 then (0, 1) else (1, 0)

/-- `did_win`: the player's team equals the first component of
`team_win_lose`. -/
def didWin (wl : Nat × Nat) (team : Nat) : Bool := team = wl.1

/-- `did_lose`: the player's team equals the second component of
`team_win_lose`. -/
def didLose (wl : Nat × Nat) (team : Nat) : Bool := team = wl.2

/-- The `and_modify` closure: bump `times_seen`, add `did_win as usize`
to wins and `did_lose as usize` to losses, and for each metric set the
pair to `(old cumulative + value, value)`. -/
def updateStats (s : PlayerStats) (wl : Nat × Nat) (a : LineAcc) : PlayerStats :=
  { times_seen := s.times_seen + 1
    wins := s.wins + (if didWin wl a.team then 1 else 0)
    losses := s.losses + (if didLose wl a.team then 1 else 0)
    score := (s.score.1 + a.score, a.score)
    goals := (s.goals.1 + a.goals, a.goals)
    assists := (s.assists.1 + a.assists, a.assists)
    saves := (s.saves.1 + a.saves, a.saves)
    shots := (s.shots.1 + a.shots, a.shots) }

/-- The `or_insert` record: a fresh entry for a first-time player. -/
def freshStats (wl : Nat × Nat) (a : LineAcc) : PlayerStats :=
  { times_seen := 1
    wins := if didWin wl a.team then 1 else 0
    losses := if didLose wl a.team then 1 else 0
    score := (a.score, a.score)
    goals := (a.goals, a.goals)
    assists := (a.assists, a.assists)
    saves := (a.saves, a.saves)
    shots := (a.shots, a.shots) }

/-- Processing one row of the `PlayerStats` array inside the
accumulate loop: rows whose accumulator has no name are skipped, the
rest update the map entry of the extracted name. -/
def applyLine (t : Tally) (wl : Nat × Nat) (row : List (String × HeaderProp)) : Tally :=
  let a := readLine row
  match a.name with
  | none => t
  | some n =>
      { t with player_stats := updatePlayer t.player_stats n (fun s => updateStats s wl a) (freshStats wl a) }

/-- Merging one match: run the accumulate loop over every row, then
increment `games_played` (which the source does after the loop). -/
def mergeRecord (t : Tally) (rows : List (List (String × HeaderProp))) (t0 t1 : Int) : Tally :=
  let wl := teamWinLose t0 t1
  let t' := rows.foldl (fun acc row => applyLine acc wl row) t
  { t' with games_played := t'.games_played + 1 }

/-- Session states reachable from the initial tally by any sequence of
merged matches. -/
inductive Reachable : Tally → Prop where
  | init : Reachable initTally
  | step (t : Tally) (rows : List (List (String × HeaderProp))) (t0 t1 : Int) :
      Reachable t → Reachable (mergeRecord t rows t0 t1)

/-- The all-zero statistics record (what a fresh entry is before this
match is folded in). -/
def zeroStats : PlayerStats :=
  { times_seen := 0, wins := 0, losses := 0, score := (0, 0), goals := (0, 0),
    assists := (0, 0), saves := (0, 0), shots := (0, 0) }

/-- Session states reachable by merges in which no drawn match lists a
player with team value 2 (the sentinel the source uses for the winner
and loser indices of a draw). -/
inductive ReachableNoTeam2Draw : Tally → Prop where
  | init : ReachableNoTeam2Draw initTally
  | step (t : Tally) (rows : List (List (String × HeaderProp))) (t0 t1 : Int) :
      ReachableNoTeam2Draw t →
      (t0 = t1 → ∀ row ∈ rows, (readLine row).team ≠ 2) →
      ReachableNoTeam2Draw (mergeRecord t rows t0 t1)

/-! Event debouncer (the `current_file` handling of the event loop). -/

/-- The kinds the event loop distinguishes: `Create`, `Modify`, and the
`_` arm for everything else. -/
inductive EventKind where
  | created
  | modified
  | other
deriving DecidableEq, Repr

/-- A filesystem notification: a kind and the first path of the event. -/
structure RawEvent where
  kind : EventKind
  path : String
deriving DecidableEq, Repr

/-- One iteration of the event loop's debounce logic, state =
`current_file`.  Returns the new state and an optional ready path:
`Create(p)` stores `p`; `Modify(p)` with `current_file == Some(p)`
clears the state and signals `p` ready; everything else is a no-op. -/
def debStep (pending : Option String) (e : RawEvent) : Option String × Option String :=
  match e.kind with
  | .created => (some e.path, none)
  | .modified =>
      match pending with
      | some c => if c = e.path then (none, some e.path) else (pending, none)
      | none => (pending, none)
  | .other => (pending, none)

/-- Running the debouncer over an event sequence, collecting the ready
signals in order. -/
def debRun (pending : Option String) (es : List RawEvent) : Option String × List String :=
  match es with
  | [] => (pending, [])
  | e :: rest =>
      let r := debStep pending e
      let rem := debRun r.1 rest
      (rem.1, r.2.toList ++ rem.2)

/-! Extraction of a ready file (lines 133-167 of the source). -/

/-- Model of `replay.properties.iter().find(|(s, _)| s == key)`. -/
def findProp (props : List (String × HeaderProp)) (key : String) : Option HeaderProp :=
  match props with
  | [] => none
  | (k, v) :: rest => if k = key then some v else findProp rest key

/-- The ways extraction gives up on a file, each a `continue` in the
source. -/
inductive ExtractError where
  | decodeFailed
  | noPlayerStats
  | statsNotArray
deriving DecidableEq, Repr

/-- A normalised match record: the player rows and the two team scores. -/
structure MatchRecord where
  rows : List (List (String × HeaderProp))
  team0_score : Int
  team1_score : Int

/-- Extracting a match record from decoded properties: find the
`PlayerStats` property (error if absent), require it to be an array
(error otherwise), and read the team scores, each defaulting to 0 when
the property is absent or `as_i32` fails. -/
def extractRecord (props : List (String × HeaderProp)) : Except ExtractError MatchRecord :=
  match findProp props "PlayerStats" with
  | none => .error .noPlayerStats
  | some p =>
      match p with
      | .array rows =>
          let t0 := ((findProp props "Team0Score").map (fun v => (v.asI32).getD 0)).getD 0
          let t1 := ((findProp props "Team1Score").map (fun v => (v.asI32).getD 0)).getD 0
          .ok { rows := rows, team0_score := t0, team1_score := t1 }
      | _ => .error .statsNotArray

/-- Handling one ready file: check the extension is `replay`, decode
(modelled as the optional property list the decoder produced), extract,
and only on full success merge into the tally.  Every failure is a
`continue` that leaves the tally untouched. -/
def handleReady (t : Tally) (ext : Option String)
    (decoded : Option (List (String × HeaderProp))) : Tally :=
  if ext ≠ some "replay" then t
  else
    match decoded with
    | none => t
    | some props =>
        match extractRecord props with
        | .error _ => t
        | .ok r => mergeRecord t r.rows r.team0_score r.team1_score

/-! Report formatting (lines 222-271 of the source). -/

/-- The report filter (the `continue` in the render loop): a player is
dropped when seen in fewer than all games and in at most
`max(3, games_played / 2)` of them. -/
def filteredOut (times_seen games_played : Nat) : Bool :=
  times_seen != games_played && times_seen ≤ max 3 (games_played / 2)

/-- The sort order of `sort_unstable_by(|a, b| b.1.score.cmp(&a.1.score))`:
descending lexicographic comparison of the `(cumulative, most recent)`
score pairs. -/
def scoreGe (a b : String × PlayerStats) : Bool :=
  b.2.score.1 < a.2.score.1 ∨ (b.2.score.1 = a.2.score.1 ∧ b.2.score.2 ≤ a.2.score.2)

/-- One player's block of the report (the `formatdoc!` literal). -/
def renderPlayer (name : String) (s : PlayerStats) : String :=
  "### " ++ name ++ "\n" ++
  "*Played " ++ toString s.times_seen ++ " games*\n" ++
  "- Wins/Losses: " ++ toString s.wins ++ "/" ++ toString s.losses ++ "\n" ++
  "- Score: " ++ toString s.score.1 ++ " (" ++ toString s.score.2 ++ ")\n" ++
  "- Goals: " ++ toString s.goals.1 ++ " (" ++ toString s.goals.2 ++ ")\n" ++
  "- Assists: " ++ toString s.assists.1 ++ " (" ++ toString s.assists.2 ++ ")\n" ++
  "- Saves: " ++ toString s.saves.1 ++ " (" ++ toString s.saves.2 ++ ")\n" ++
  "- Shots: " ++ toString s.shots.1 ++ " (" ++ toString s.shots.2 ++ ")\n"

/-- The sorted player list the render loop walks. -/
def sortedPlayers (t : Tally) : List (String × PlayerStats) :=
  t.player_stats.mergeSort scoreGe

/-- The full report: header naming `games_played`, then each surviving
player's block in sorted order. -/
def render (t : Tally) : String :=
  let header := "## Game " ++ toString t.games_played ++ " finished\n\n"
  (sortedPlayers t).foldl
    (fun msg p =>
      if filteredOut p.2.times_seen t.games_played then msg
      else msg ++ renderPlayer p.1 p.2)
    header

/-! Helper lemmas about the map operations and the merge loop. -/

theorem lookupPlayer_updatePlayer (m : List (String × PlayerStats)) (n : String)
    (f : PlayerStats → PlayerStats) (d : PlayerStats) (k : String) :
    lookupPlayer (updatePlayer m n f d) k =
      if k = n then some ((lookupPlayer m n).elim d f) else lookupPlayer m k := by
  induction m with
  | nil =>
      by_cases h : k = n
      · subst h
        simp [updatePlayer, lookupPlayer]
      · have h' : ¬n = k := fun hh => h hh.symm
        simp [updatePlayer, lookupPlayer, h, h']
  | cons hd rest ih =>
      obtain ⟨a, v⟩ := hd
      by_cases han : a = n <;> by_cases hak : a = k <;> by_cases hkn : k = n <;>
        simp_all [updatePlayer, lookupPlayer]

theorem freshStats_eq_updateZero (wl : Nat × Nat) (a : LineAcc) :
    freshStats wl a = updateStats zeroStats wl a := by
  simp [freshStats, updateStats, zeroStats]

theorem lookupPlayer_applyLine (t : Tally) (wl : Nat × Nat)
    (row : List (String × HeaderProp)) (k : String) :
    lookupPlayer (applyLine t wl row).player_stats k =
      if (readLine row).name = some k
      then some (updateStats ((lookupPlayer t.player_stats k).getD zeroStats) wl (readLine row))
      else lookupPlayer t.player_stats k := by
  cases hname : (readLine row).name with
  | none => simp [applyLine, hname]
  | some n =>
      simp only [applyLine, hname, lookupPlayer_updatePlayer, freshStats_eq_updateZero]
      by_cases hk : k = n
      · subst hk
        cases hv : lookupPlayer t.player_stats k <;> simp [hv]
      · have hnk : ¬n = k := fun hh => hk hh.symm
        simp [hk, hnk]

theorem games_applyLine (t : Tally) (wl : Nat × Nat) (row : List (String × HeaderProp)) :
    (applyLine t wl row).games_played = t.games_played := by
  cases hname : (readLine row).name <;> simp [applyLine, hname]

theorem games_foldl (rows : List (List (String × HeaderProp))) (wl : Nat × Nat) (t : Tally) :
    (rows.foldl (fun acc row => applyLine acc wl row) t).games_played = t.games_played := by
  induction rows generalizing t with
  | nil => rfl
  | cons r rs ih => simp [List.foldl_cons, ih, games_applyLine]

theorem games_mergeRecord (t : Tally) (rows : List (List (String × HeaderProp))) (t0 t1 : Int) :
    (mergeRecord t rows t0 t1).games_played = t.games_played + 1 := by
  simp [mergeRecord, games_foldl]

theorem lookup_foldl_of_not_named (rows : List (List (String × HeaderProp))) (wl : Nat × Nat)
    (t : Tally) (k : String) (h : ∀ row ∈ rows, (readLine row).name ≠ some k) :
    lookupPlayer (rows.foldl (fun acc row => applyLine acc wl row) t).player_stats k =
      lookupPlayer t.player_stats k := by
  induction rows generalizing t with
  | nil => rfl
  | cons r rs ih =>
      rw [List.foldl_cons, ih _ (fun row hr => h row (List.mem_cons_of_mem r hr)),
        lookupPlayer_applyLine, if_neg (h r (List.mem_cons_self r rs))]

theorem lookup_foldl_named_once (pre : List (List (String × HeaderProp)))
    (row : List (String × HeaderProp)) (post : List (List (String × HeaderProp)))
    (wl : Nat × Nat) (t : Tally) (k : String)
    (hpre : ∀ r ∈ pre, (readLine r).name ≠ some k)
    (hpost : ∀ r ∈ post, (readLine r).name ≠ some k)
    (hrow : (readLine row).name = some k) :
    lookupPlayer ((pre ++ row :: post).foldl (fun acc r => applyLine acc wl r) t).player_stats k =
      some (updateStats ((lookupPlayer t.player_stats k).getD zeroStats) wl (readLine row)) := by
  induction pre generalizing t with
  | nil =>
      rw [List.nil_append, List.foldl_cons, lookup_foldl_of_not_named post wl _ k hpost,
        lookupPlayer_applyLine, if_pos hrow]
  | cons p ps ih =>
      rw [List.cons_append, List.foldl_cons,
        ih _ (fun r hr => hpre r (List.mem_cons_of_mem p hr)),
        lookupPlayer_applyLine, if_neg (hpre p (List.mem_cons_self p ps))]

theorem inv_foldl (P : PlayerStats → Prop) (wl : Nat × Nat)
    (rows : List (List (String × HeaderProp))) (t : Tally)
    (hP : ∀ row ∈ rows, ∀ s, P s → P (updateStats s wl (readLine row)))
    (hz : P zeroStats)
    (ht : ∀ n s, lookupPlayer t.player_stats n = some s → P s) :
    ∀ n s, lookupPlayer (rows.foldl (fun acc row => applyLine acc wl row) t).player_stats n = some s → P s := by
  induction rows generalizing t with
  | nil => exact ht
  | cons r rs ih =>
      rw [List.foldl_cons]
      apply ih _ (fun row hr => hP row (List.mem_cons_of_mem r hr))
      intro n s hs
      rw [lookupPlayer_applyLine] at hs
      by_cases hn : (readLine r).name = some n
      · rw [if_pos hn] at hs
        cases hs
        apply hP r (List.mem_cons_self r rs)
        cases hv : lookupPlayer t.player_stats n with
        | none => simpa [hv] using hz
        | some v => simpa [hv] using ht n v hv
      · rw [if_neg hn] at hs
        exact ht n s hs

theorem not_didWin_and_didLose (t0 t1 : Int) (team : Nat) (h : t0 = t1 → team ≠ 2) :
    ¬(didWin (teamWinLose t0 t1) team = true ∧ didLose (teamWinLose t0 t1) team = true) := by
  by_cases h01 : t0 = t1
  · simp [didWin, didLose, teamWinLose, h01]
    intro hw
    exact absurd hw (h h01)
  · by_cases hgt : t0 > t1 <;>
      · simp [didWin, didLose, teamWinLose, h01, hgt]
        intro h1 h2
        omega

theorem scoreGe_trans (a b c : String × PlayerStats) :
    scoreGe a b → scoreGe b c → scoreGe a c := by
  simp only [scoreGe, decide_eq_true_eq]
  omega

theorem scoreGe_total (a b : String × PlayerStats) :
    scoreGe a b || scoreGe b a := by
  simp only [scoreGe, Bool.or_eq_true, decide_eq_true_eq]
  omega

theorem scoreGe_le (a b : String × PlayerStats) (h : scoreGe a b) :
    b.2.score.1 ≤ a.2.score.1 := by
  simp only [scoreGe, decide_eq_true_eq] at h
  omega

/-! Claim C1: win/loss classification. -/

/-- C1 counterexample: merging a drawn match (scores 0-0) whose single
player row carries team value 2 increments both that player's wins and
losses, refuting the claim that a draw increments neither whatever the
team value. -/
theorem C1_counterexample :
    ¬ (∀ (t0 t1 : Int), t0 = t1 →
        ∀ s : PlayerStats,
          lookupPlayer (mergeRecord initTally
              [[("Name", HeaderProp.str "a"), ("Team", HeaderProp.int 2)]]
              t0 t1).player_stats "a" = some s →
          s.wins = 0 ∧ s.losses = 0) := by
  intro h
  have hv := h 0 0 rfl
    ⟨1, 1, 1, (0, 0), (0, 0), (0, 0), (0, 0), (0, 0)⟩ (by decide)
  exact absurd hv.1 (by decide)

/-- C1 (amended): a player's per-match classification is Win iff the
scores differ and `player.team` equals the winning index, or the match
is a draw and `player.team = 2`; Loss iff the scores differ and
`player.team` equals the losing index, or the match is a draw and
`player.team = 2`; and the merge adds exactly `did_win` to wins and
`did_lose` to losses of the named player's entry. -/
theorem C1_win_loss_classification (t0 t1 : Int) (team : Nat) :
    (didWin (teamWinLose t0 t1) team = true ↔
      ((t0 = t1 ∧ team = 2) ∨ (t0 > t1 ∧ team = 0) ∨ (t1 > t0 ∧ team = 1)))
  ∧ (didLose (teamWinLose t0 t1) team = true ↔
      ((t0 = t1 ∧ team = 2) ∨ (t0 > t1 ∧ team = 1) ∨ (t1 > t0 ∧ team = 0)))
  ∧ (∀ (t : Tally) (row : List (String × HeaderProp)) (n : String),
      (readLine row).name = some n →
      ((lookupPlayer (applyLine t (teamWinLose t0 t1) row).player_stats n).map PlayerStats.wins =
          some (((lookupPlayer t.player_stats n).getD zeroStats).wins +
            (if didWin (teamWinLose t0 t1) (readLine row).team then 1 else 0))
        ∧ (lookupPlayer (applyLine t (teamWinLose t0 t1) row).player_stats n).map PlayerStats.losses =
          some (((lookupPlayer t.player_stats n).getD zeroStats).losses +
            (if didLose (teamWinLose t0 t1) (readLine row).team then 1 else 0)))) := by
  refine ⟨?_, ?_, ?_⟩
  · simp only [didWin, teamWinLose]
    split_ifs with h1 h2 <;> simp <;> omega
  · simp only [didLose, teamWinLose]
    split_ifs with h1 h2 <;> simp <;> omega
  · intro t row n hname
    constructor
    · rw [lookupPlayer_applyLine, if_pos hname]
      simp [updateStats]
    · rw [lookupPlayer_applyLine, if_pos hname]
      simp [updateStats]

/-- C1 witness: the amended classification applied to a concrete 3-1
match with a fresh team-0 player. -/
theorem C1_witness :
    ((lookupPlayer (applyLine initTally (teamWinLose 3 1)
        [("Name", HeaderProp.str "a"), ("Team", HeaderProp.int 0)]).player_stats "a").map PlayerStats.wins =
        some (((lookupPlayer initTally.player_stats "a").getD zeroStats).wins +
          (if didWin (teamWinLose 3 1)
              (readLine [("Name", HeaderProp.str "a"), ("Team", HeaderProp.int 0)]).team then 1 else 0))
      ∧ (lookupPlayer (applyLine initTally (teamWinLose 3 1)
        [("Name", HeaderProp.str "a"), ("Team", HeaderProp.int 0)]).player_stats "a").map PlayerStats.losses =
        some (((lookupPlayer initTally.player_stats "a").getD zeroStats).losses +
          (if didLose (teamWinLose 3 1)
              (readLine [("Name", HeaderProp.str "a"), ("Team", HeaderProp.int 0)]).team then 1 else 0))) :=
  (C1_win_loss_classification 3 1 0).2.2 initTally
    [("Name", HeaderProp.str "a"), ("Team", HeaderProp.int 0)] "a" (by decide)

/-! Claim C2: the `wins + losses ≤ times_seen` invariant. -/

/-- C2 counterexample: the state reached by merging one drawn match
whose player row carries team value 2 violates
`wins + losses ≤ times_seen` (that player ends with 1 win, 1 loss and
`times_seen = 1`). -/
theorem C2_counterexample :
    ¬ (∀ t : Tally, Reachable t → ∀ (n : String) (s : PlayerStats),
        lookupPlayer t.player_stats n = some s → s.wins + s.losses ≤ s.times_seen) := by
  intro h
  have hv := h (mergeRecord initTally
      [[("Name", HeaderProp.str "b"), ("Team", HeaderProp.int 2)]] 0 0)
    (Reachable.step initTally _ 0 0 Reachable.init) "b"
    ⟨1, 1, 1, (0, 0), (0, 0), (0, 0), (0, 0), (0, 0)⟩ (by decide)
  exact absurd hv (by decide)

/-- C2 (amended): for every reachable SessionState,
`wins + losses ≤ 2 * times_seen`; the stated bound
`wins + losses ≤ times_seen` holds for every state reachable by merges
in which no drawn match lists a player row with team value 2. -/
theorem C2_tally_invariant :
    (∀ t : Tally, Reachable t → ∀ (n : String) (s : PlayerStats),
        lookupPlayer t.player_stats n = some s → s.wins + s.losses ≤ 2 * s.times_seen)
  ∧ (∀ t : Tally, ReachableNoTeam2Draw t → ∀ (n : String) (s : PlayerStats),
        lookupPlayer t.player_stats n = some s → s.wins + s.losses ≤ s.times_seen) := by
  constructor
  · intro t h
    induction h with
    | init => intro n s hs; simp [initTally, lookupPlayer] at hs
    | step t rows t0 t1 htr ih =>
        intro n s hs
        simp only [mergeRecord] at hs
        refine inv_foldl (fun s => s.wins + s.losses ≤ 2 * s.times_seen) _ rows t
          (fun row _ s hp => ?_) (by simp [zeroStats]) ih n s hs
        simp only [updateStats]
        split_ifs <;> omega
  · intro t h
    induction h with
    | init => intro n s hs; simp [initTally, lookupPlayer] at hs
    | step t rows t0 t1 htr hnd ih =>
        intro n s hs
        simp only [mergeRecord] at hs
        refine inv_foldl (fun s => s.wins + s.losses ≤ s.times_seen) _ rows t
          (fun row hrow s hp => ?_) (by simp [zeroStats]) ih n s hs
        have hne := not_didWin_and_didLose t0 t1 (readLine row).team
          (fun h01 => hnd h01 row hrow)
        simp only [updateStats]
        split_ifs with hw hl
        · exact absurd ⟨hw, hl⟩ hne
        · omega
        · omega
        · omega

/-- C2 witness: the amended invariant applied to the state reached by
one merged 1-0 match with a single team-0 player. -/
theorem C2_witness :
    (⟨1, 1, 0, (0, 0), (0, 0), (0, 0), (0, 0), (0, 0)⟩ : PlayerStats).wins +
      (⟨1, 1, 0, (0, 0), (0, 0), (0, 0), (0, 0), (0, 0)⟩ : PlayerStats).losses ≤
      (⟨1, 1, 0, (0, 0), (0, 0), (0, 0), (0, 0), (0, 0)⟩ : PlayerStats).times_seen :=
  C2_tally_invariant.2
    (mergeRecord initTally [[("Name", HeaderProp.str "a"), ("Team", HeaderProp.int 0)]] 1 0)
    (ReachableNoTeam2Draw.step initTally _ 1 0 ReachableNoTeam2Draw.init
      (fun h => absurd h (by decide)))
    "a" _ (by decide)

/-! Claim C3: the event debouncer. -/

/-- C3: from any debouncer state, Created(p) directly followed by
Modified(p) yields exactly one ready(p); Created(p) then Modified(q)
with q distinct from p yields no ready signal; Created(p1), Created(p2),
Modified(p1) with distinct paths yields no ready signal; events of other
kinds, and Modified while nothing is pending, change nothing and emit
nothing. -/
theorem C3_debouncer :
    (∀ (pend : Option String) (p : String),
        debRun pend [⟨.created, p⟩, ⟨.modified, p⟩] = (none, [p]))
  ∧ (∀ (pend : Option String) (p q : String), p ≠ q →
        (debRun pend [⟨.created, p⟩, ⟨.modified, q⟩]).2 = [])
  ∧ (∀ (pend : Option String) (p1 p2 : String), p1 ≠ p2 →
        (debRun pend [⟨.created, p1⟩, ⟨.created, p2⟩, ⟨.modified, p1⟩]).2 = [])
  ∧ (∀ (pend : Option String) (p : String), debStep pend ⟨.other, p⟩ = (pend, none))
  ∧ (∀ p : String, debStep none ⟨.modified, p⟩ = (none, none)) := by
  refine ⟨?_, ?_, ?_, ?_, ?_⟩
  · intro pend p
    simp [debRun, debStep]
  · intro pend p q h
    simp [debRun, debStep, h]
  · intro pend p1 p2 h
    simp [debRun, debStep, h.symm]
  · intro pend p
    rfl
  · intro p
    rfl

/-- C3 witness: the no-ready cases at the concrete distinct paths "a"
and "b". -/
theorem C3_witness :
    (debRun none [⟨.created, "a"⟩, ⟨.modified, "b"⟩]).2 = []
  ∧ (debRun none [⟨.created, "a"⟩, ⟨.created, "b"⟩, ⟨.modified, "a"⟩]).2 = [] :=
  ⟨C3_debouncer.2.1 none "a" "b" (by decide),
   C3_debouncer.2.2.1 none "a" "b" (by decide)⟩

/-! Claim C4: the effects of merging one match. -/

/-- C4: merging one match increments `games_played` by one, leaves
players named by no row untouched, and for a player named by exactly
one row replaces the entry by the update of its previous value (or of
the all-zero record when absent): `times_seen + 1`, wins/losses bumped
per classification, each metric set to
`(cumulative + value, value)`.  Consequently, after a 1-0 match for
"b" followed by a match "b" does not appear in, "b" has
`times_seen = 1` while `games_played = 2`, with cumulative totals and
most-recent values those of the single match. -/
theorem C4_merge_effects :
    (∀ (t : Tally) (rows : List (List (String × HeaderProp))) (t0 t1 : Int),
        (mergeRecord t rows t0 t1).games_played = t.games_played + 1)
  ∧ (∀ (t : Tally) (rows : List (List (String × HeaderProp))) (t0 t1 : Int) (n : String),
        (∀ row ∈ rows, (readLine row).name ≠ some n) →
        lookupPlayer (mergeRecord t rows t0 t1).player_stats n = lookupPlayer t.player_stats n)
  ∧ (∀ (t : Tally) (pre : List (List (String × HeaderProp)))
        (row : List (String × HeaderProp)) (post : List (List (String × HeaderProp)))
        (t0 t1 : Int) (n : String),
        (∀ r ∈ pre, (readLine r).name ≠ some n) →
        (∀ r ∈ post, (readLine r).name ≠ some n) →
        (readLine row).name = some n →
        lookupPlayer (mergeRecord t (pre ++ row :: post) t0 t1).player_stats n =
          some (updateStats ((lookupPlayer t.player_stats n).getD zeroStats)
            (teamWinLose t0 t1) (readLine row)))
  ∧ ((mergeRecord (mergeRecord initTally
        [[("Name", HeaderProp.str "b"), ("Score", HeaderProp.int 10),
          ("Goals", HeaderProp.int 2), ("Team", HeaderProp.int 0)]] 1 0)
        [[("Name", HeaderProp.str "c"), ("Score", HeaderProp.int 5)]] 0 0).games_played = 2
      ∧ lookupPlayer (mergeRecord (mergeRecord initTally
        [[("Name", HeaderProp.str "b"), ("Score", HeaderProp.int 10),
          ("Goals", HeaderProp.int 2), ("Team", HeaderProp.int 0)]] 1 0)
        [[("Name", HeaderProp.str "c"), ("Score", HeaderProp.int 5)]] 0 0).player_stats "b" =
        some ⟨1, 1, 0, (10, 10), (2, 2), (0, 0), (0, 0), (0, 0)⟩) := by
  refine ⟨?_, ?_, ?_, by decide, by decide⟩
  · intro t rows t0 t1
    exact games_mergeRecord t rows t0 t1
  · intro t rows t0 t1 n h
    simp only [mergeRecord]
    exact lookup_foldl_of_not_named rows _ t n h
  · intro t pre row post t0 t1 n hpre hpost hrow
    simp only [mergeRecord]
    exact lookup_foldl_named_once pre row post _ t n hpre hpost hrow

/-- C4 witness: the single-row effect applied to a concrete merge of
one row naming "b" into the empty tally. -/
theorem C4_witness :
    lookupPlayer (mergeRecord initTally
        ([] ++ [("Name", HeaderProp.str "b")] :: []) 0 0).player_stats "b" =
      some (updateStats ((lookupPlayer initTally.player_stats "b").getD zeroStats)
        (teamWinLose 0 0) (readLine [("Name", HeaderProp.str "b")])) :=
  C4_merge_effects.2.2.1 initTally [] [("Name", HeaderProp.str "b")] [] 0 0 "b"
    (by simp) (by simp) (by decide)

/-! Claim C6: name handling in the merge. -/

/-- C6 counterexample: a row whose Name property holds the empty string
creates an entry keyed by the empty name, refuting "no PlayerTally
entry keyed by an empty name is ever created". -/
theorem C6_counterexample :
    ¬ (∀ t : Tally, Reachable t → lookupPlayer t.player_stats "" = none) := by
  intro h
  exact absurd
    (h (mergeRecord initTally [[("Name", HeaderProp.str "")]] 0 0)
      (Reachable.step initTally _ 0 0 Reachable.init))
    (by decide)

/-- C6 (amended): a row is skipped entirely exactly when it carries no
string-valued Name property; players the rows never name are untouched;
but the key is the Name string verbatim, so a row with Name = "" does
create an entry keyed by the empty name. -/
theorem C6_name_handling :
    (∀ (t : Tally) (wl : Nat × Nat) (row : List (String × HeaderProp)),
        (readLine row).name = none → applyLine t wl row = t)
  ∧ (∀ (t : Tally) (rows : List (List (String × HeaderProp))) (t0 t1 : Int) (n : String),
        (∀ row ∈ rows, (readLine row).name ≠ some n) →
        lookupPlayer (mergeRecord t rows t0 t1).player_stats n = lookupPlayer t.player_stats n)
  ∧ lookupPlayer (mergeRecord initTally
        [[("Name", HeaderProp.str "")]] 0 0).player_stats "" ≠ none := by
  refine ⟨?_, ?_, by decide⟩
  · intro t wl row h
    simp [applyLine, h]
  · intro t rows t0 t1 n h
    simp only [mergeRecord]
    exact lookup_foldl_of_not_named rows _ t n h

/-- C6 witness: a nameless row (only a Score property) leaves the tally
unchanged. -/
theorem C6_witness :
    applyLine initTally (0, 1) [("Score", HeaderProp.int 7)] = initTally :=
  C6_name_handling.1 initTally (0, 1) [("Score", HeaderProp.int 7)] (by decide)

/-! Claim C7: failed extraction leaves the state untouched. -/

/-- C7: a ready file whose extension is not `replay`, whose decoding
fails, or whose extraction errors (PlayerStats missing or not an array)
leaves the tally exactly as it was: no partial merge. -/
theorem C7_skip_preserves_state :
    (∀ (t : Tally) (ext : Option String) (decoded : Option (List (String × HeaderProp))),
        ext ≠ some "replay" → handleReady t ext decoded = t)
  ∧ (∀ (t : Tally) (ext : Option String), handleReady t ext none = t)
  ∧ (∀ (t : Tally) (ext : Option String) (props : List (String × HeaderProp)) (e : ExtractError),
        extractRecord props = .error e → handleReady t ext (some props) = t) := by
  refine ⟨?_, ?_, ?_⟩
  · intro t ext dec h
    simp [handleReady, h]
  · intro t ext
    by_cases h : ext = some "replay" <;> simp [handleReady, h]
  · intro t ext props e h
    by_cases hx : ext = some "replay" <;> simp [handleReady, hx, h]

/-- C7 witness: a wrong extension, a decode failure, and an extraction
error (no PlayerStats property), each on the empty tally. -/
theorem C7_witness :
    handleReady initTally (some "tmp") (some []) = initTally
  ∧ handleReady initTally (some "replay") none = initTally
  ∧ handleReady initTally (some "replay") (some []) = initTally :=
  ⟨C7_skip_preserves_state.1 initTally (some "tmp") (some []) (by decide),
   C7_skip_preserves_state.2.1 initTally (some "replay"),
   C7_skip_preserves_state.2.2 initTally (some "replay") [] ExtractError.noPlayerStats rfl⟩

/-! Claim C5: the report filter. -/

/-- C5: the report filter excludes a player exactly when
`times_seen != games_played` and `times_seen <= max(3, games_played/2)`
(integer division); a player with `times_seen = games_played` is never
filtered; with 10 games, `times_seen = 4` is excluded and
`times_seen = 6` is included. -/
theorem C5_report_filter :
    (∀ ts g : Nat, filteredOut ts g = true ↔ (ts ≠ g ∧ ts ≤ max 3 (g / 2)))
  ∧ (∀ g : Nat, filteredOut g g = false)
  ∧ filteredOut 4 10 = true ∧ filteredOut 6 10 = false := by
  refine ⟨?_, ?_, by decide, by decide⟩
  · intro ts g
    simp [filteredOut]
  · intro g
    simp [filteredOut]

/-- C5 witness: the filter at the concrete inputs of the claim. -/
theorem C5_witness :
    filteredOut 4 10 = true ∧ filteredOut 6 10 = false ∧ filteredOut 10 10 = false :=
  ⟨(C5_report_filter.1 4 10).mpr ⟨by decide, by decide⟩,
   C5_report_filter.2.2.2,
   C5_report_filter.2.1 10⟩

/-! Claim C8: the report is deterministic and sorted. -/

/-- C8: `render` is a function of the session state (rendering twice
without an intervening merge gives identical text), and the player list
it walks is sorted descending by cumulative score total, both before
and after the filter (ties are ordered by the deterministic
lexicographic comparison of the score pairs). -/
theorem C8_render_deterministic_sorted :
    (∀ t : Tally, render t = render t)
  ∧ (∀ t : Tally, (sortedPlayers t).Pairwise (fun a b => b.2.score.1 ≤ a.2.score.1))
  ∧ (∀ t : Tally, ((sortedPlayers t).filter
        (fun p => !filteredOut p.2.times_seen t.games_played)).Pairwise
        (fun a b => b.2.score.1 ≤ a.2.score.1)) := by
  have hsorted : ∀ t : Tally,
      (sortedPlayers t).Pairwise (fun a b => b.2.score.1 ≤ a.2.score.1) := by
    intro t
    have h := List.sorted_mergeSort scoreGe_trans scoreGe_total t.player_stats
    exact h.imp (fun hab => scoreGe_le _ _ hab)
  exact ⟨fun _ => rfl, hsorted,
    fun t => (hsorted t).filter (fun p => !filteredOut p.2.times_seen t.games_played)⟩

/-! Claim C9: negative decoded integers wrap. -/

/-- C9: the source converts each decoded `i32` stat with `as usize`,
a wrapping cast: any negative in-range value `v` is read as
`2^64 + v`, so Score = -1 contributes `2^64 - 1` to the cumulative
total instead of being rejected, clamped or zeroed. -/
theorem C9_wrapping_cast (v : Int) (h1 : -(2 ^ 31) ≤ v) (h2 : v < 2 ^ 31) (hneg : v < 0) :
    i32AsUsize v = (2 ^ 64 + v).toNat
  ∧ (readLine [("Score", HeaderProp.int v)]).score = i32AsUsize v
  ∧ i32AsUsize (-1) = 2 ^ 64 - 1
  ∧ (lookupPlayer (mergeRecord initTally
        [[("Name", HeaderProp.str "a"), ("Score", HeaderProp.int (-1))]]
        0 0).player_stats "a").map (fun s => s.score) =
      some (2 ^ 64 - 1, 2 ^ 64 - 1) := by
  refine ⟨?_, rfl, by decide, by decide⟩
  unfold i32AsUsize
  have hmod : v % (2 ^ 64 : Int) = 2 ^ 64 + v := by omega
  rw [hmod]

/-- C9 witness: the wrapping cast at the concrete value -1. -/
theorem C9_witness :
    i32AsUsize (-1) = (2 ^ 64 + (-1)).toNat
  ∧ (readLine [("Score", HeaderProp.int (-1))]).score = i32AsUsize (-1)
  ∧ i32AsUsize (-1) = 2 ^ 64 - 1
  ∧ (lookupPlayer (mergeRecord initTally
        [[("Name", HeaderProp.str "a"), ("Score", HeaderProp.int (-1))]]
        0 0).player_stats "a").map (fun s => s.score) =
      some (2 ^ 64 - 1, 2 ^ 64 - 1) :=
  C9_wrapping_cast (-1) (by decide) (by decide) (by decide)

/-! Claim C10: most-recent value never exceeds the cumulative total. -/

/-- C10: in every reachable session state, every player's
most-recent-match value is at most the cumulative total, for each of
the five metrics (the totals are Nat here, matching the claim's
no-overflow assumption). -/
theorem C10_recent_le_cumulative (t : Tally) (h : Reachable t) :
    ∀ (n : String) (s : PlayerStats), lookupPlayer t.player_stats n = some s →
      s.score.2 ≤ s.score.1 ∧ s.goals.2 ≤ s.goals.1 ∧ s.assists.2 ≤ s.assists.1
        ∧ s.saves.2 ≤ s.saves.1 ∧ s.shots.2 ≤ s.shots.1 := by
  induction h with
  | init => intro n s hs; simp [initTally, lookupPlayer] at hs
  | step t rows t0 t1 htr ih =>
      intro n s hs
      simp only [mergeRecord] at hs
      refine inv_foldl (fun s => s.score.2 ≤ s.score.1 ∧ s.goals.2 ≤ s.goals.1 ∧
          s.assists.2 ≤ s.assists.1 ∧ s.saves.2 ≤ s.saves.1 ∧ s.shots.2 ≤ s.shots.1)
        _ rows t (fun row _ s hp => ?_) (by simp [zeroStats]) ih n s hs
      simp [updateStats]

/-- C10 witness: the invariant at the state reached by one drawn match
in which player "a" scored 5. -/
theorem C10_witness :
    (⟨1, 0, 0, (5, 5), (0, 0), (0, 0), (0, 0), (0, 0)⟩ : PlayerStats).score.2 ≤
        (⟨1, 0, 0, (5, 5), (0, 0), (0, 0), (0, 0), (0, 0)⟩ : PlayerStats).score.1
      ∧ (⟨1, 0, 0, (5, 5), (0, 0), (0, 0), (0, 0), (0, 0)⟩ : PlayerStats).goals.2 ≤
        (⟨1, 0, 0, (5, 5), (0, 0), (0, 0), (0, 0), (0, 0)⟩ : PlayerStats).goals.1
      ∧ (⟨1, 0, 0, (5, 5), (0, 0), (0, 0), (0, 0), (0, 0)⟩ : PlayerStats).assists.2 ≤
        (⟨1, 0, 0, (5, 5), (0, 0), (0, 0), (0, 0), (0, 0)⟩ : PlayerStats).assists.1
      ∧ (⟨1, 0, 0, (5, 5), (0, 0), (0, 0), (0, 0), (0, 0)⟩ : PlayerStats).saves.2 ≤
        (⟨1, 0, 0, (5, 5), (0, 0), (0, 0), (0, 0), (0, 0)⟩ : PlayerStats).saves.1
      ∧ (⟨1, 0, 0, (5, 5), (0, 0), (0, 0), (0, 0), (0, 0)⟩ : PlayerStats).shots.2 ≤
        (⟨1, 0, 0, (5, 5), (0, 0), (0, 0), (0, 0), (0, 0)⟩ : PlayerStats).shots.1 :=
  C10_recent_le_cumulative
    (mergeRecord initTally [[("Name", HeaderProp.str "a"), ("Score", HeaderProp.int 5)]] 0 0)
    (Reachable.step initTally _ 0 0 Reachable.init) "a"
    ⟨1, 0, 0, (5, 5), (0, 0), (0, 0), (0, 0), (0, 0)⟩ (by decide)

end RLSession
